import Mathlib

/-!
Verification of the Mercari marketplace normalization layer
(`marketplace_integrations/mercari_normalizer.py` and
`marketplace_integrations/mercari_search.py`).

Python values are embedded as the inductive `Value`; a Python `dict` with
string keys is embedded as an association list `List (String × Value)`
(lookup returns the first binding, matching dict semantics when keys are
unique).  Fallible Python operations (numeric coercion via `float`, calling
`.lower()` on a non-string, iterating a non-list) are embedded in
`Except PyError`.  Python floats are modelled as exact rationals `ℚ`:
no claim under study depends on IEEE rounding, only on whether coercion
succeeds and on exact decimal values that round-trip.
-/

/-- Embedded Python value: `None`, booleans, numbers (int and float are
merged into `ℚ`), strings, lists, and string-keyed dicts. -/
inductive Value where
  | null : Value
  | bool : Bool → Value
  | num : ℚ → Value
  | str : String → Value
  | list : List Value → Value
  | dict : List (String × Value) → Value

/-- A raw listing record: a Python dict with string keys. -/
def RawRecord : Type := List (String × Value)

/-- Python exceptions that the embedded code can raise. -/
inductive PyError where
  | typeError : PyError
  | valueError : PyError
  | attributeError : PyError
deriving DecidableEq

/-- Dict lookup `r.get(k)` without default: the value of the first binding of `k`. -/
def lookupV (r : List (String × Value)) (k : String) : Option Value :=
  (r.find? (fun p => p.1 == k)).map (fun p => p.2)

/-- Dict lookup `r.get(k, d)` with default. -/
def getD (r : List (String × Value)) (k : String) (d : Value) : Value :=
  (lookupV r k).getD d

/-- ASCII lower-casing of one character, as `str.lower()` acts on ASCII.
(Python's `str.lower()` is Unicode-aware; every string the claims exercise
is ASCII, and the classifier and its specification below use the same
lowering, so the non-ASCII divergence is not load-bearing.) -/
def lowerChar (c : Char) : Char :=
  if 'A' ≤ c ∧ c ≤ 'Z' then Char.ofNat (c.toNat + 32) else c

/-- Lower-casing `s.lower()` of an embedded string. -/
def lowerStr (s : String) : String :=
  String.mk (s.data.map lowerChar)

/-- Word characters for the regex metacharacter `\b` (ASCII letters,
digits, underscore). -/
def isWordChar (c : Char) : Bool :=
  ('a' ≤ c && c ≤ 'z') || ('A' ≤ c && c ≤ 'Z') || ('0' ≤ c && c ≤ '9') || c == '_'

/-- Literal-pattern match at the head of a character list. -/
def listStartsWith : List Char → List Char → Bool
  | [], _ => true
  | _ :: _, [] => false
  | p :: ps, c :: cs => p == c && listStartsWith ps cs

/-- Does the literal pattern `pat` match at the current position, with the
regex boundary `\b` required on both sides?  `prev` is the character just
before the current position (`none` at the start of the string).  All
patterns used by the classifier begin and end with word characters, so
`\b` amounts to: the neighbouring character, if any, is not a word
character. -/
def matchesAt (pat : List Char) (prev : Option Char) (s : List Char) : Bool :=
  (match prev with
   | none => true
   | some c => !isWordChar c) &&
  listStartsWith pat s &&
  (match s.drop pat.length with
   | [] => true
   | c :: _ => !isWordChar c)

/-- Search `re.search` for a literal pattern wrapped in `\b...\b`: try every
position of `s`, keeping track of the previous character. -/
def searchWB (pat : List Char) : Option Char → List Char → Bool
  | prev, [] => matchesAt pat prev []
  | prev, c :: cs => matchesAt pat prev (c :: cs) || searchWB pat (some c) cs

/-- Test whether `re.search` of the pattern `pat` wrapped in word boundaries succeeds on `s`, for a literal phrase `pat`. -/
def hasWB (pat s : String) : Bool :=
  searchWB pat.data none s.data

/-- The closed condition enumeration (`StandardCondition` in the source). -/
inductive StandardCondition where
  | NEW : StandardCondition
  | LIKE_NEW : StandardCondition
  | VERY_GOOD : StandardCondition
  | GOOD : StandardCondition
  | ACCEPTABLE : StandardCondition
  | POOR : StandardCondition
deriving DecidableEq

/-- Enum member name `.name`, as used by `normalize_listing`. -/
def conditionName : StandardCondition → String
  | .NEW => "NEW"
  | .LIKE_NEW => "LIKE_NEW"
  | .VERY_GOOD => "VERY_GOOD"
  | .GOOD => "GOOD"
  | .ACCEPTABLE => "ACCEPTABLE"
  | .POOR => "POOR"

/-- The ordered pattern table of `normalize_condition`.  The seventh entry
`r'\bpoor\b|\bhas flaws\b'` is an alternation of two literal phrases, so
each row carries the list of its phrases. -/
def condition_mapping : List (List String × StandardCondition) :=
  [(["like new"], StandardCondition.LIKE_NEW),
   (["brand new"], StandardCondition.NEW),
   (["new"], StandardCondition.NEW),
   (["very good"], StandardCondition.VERY_GOOD),
   (["good"], StandardCondition.GOOD),
   (["acceptable"], StandardCondition.ACCEPTABLE),
   (["poor", "has flaws"], StandardCondition.POOR)]

/-- Method `MercariListingNormalizer.normalize_condition`: lower-case the input,
scan the pattern table in order, return the variant of the first matching
pattern, defaulting to `GOOD`. -/
def normalize_condition (mercari_condition : String) : StandardCondition :=
  let normalized := lowerStr mercari_condition
  match condition_mapping.find? (fun pc => pc.1.any (fun p => hasWB p normalized)) with
  | some pc => pc.2
  | none => StandardCondition.GOOD

/-- Does any of the seven table patterns match the lower-cased input? -/
def matchesAny (s : String) : Bool :=
  condition_mapping.any (fun pc => pc.1.any (fun p => hasWB p (lowerStr s)))

/-- Method `MercariListingNormalizer.extract_seller_info`: projection of the
seller-prefixed raw fields with defaults, under the output keys the code
actually writes. -/
def extract_seller_info (listing_data : RawRecord) : List (String × Value) :=
  [("seller_name", getD listing_data "seller_username" (Value.str "Unknown")),
   ("seller_rating", getD listing_data "seller_rating" Value.null),
   ("total_sales", getD listing_data "seller_total_sales" (Value.num 0)),
   ("joined_date", getD listing_data "seller_join_date" Value.null)]

/-- Python truthiness (`if brand:` / `next(... if brand)`): `None`, `False`,
zero, the empty string, the empty list and the empty dict are falsy. -/
def truthy : Value → Bool
  | Value.null => false
  | Value.bool b => b
  | Value.num q => decide (q ≠ 0)
  | Value.str s => !(s == "")
  | Value.list xs => !xs.isEmpty
  | Value.dict fs => !fs.isEmpty

/-- The hard-coded known-brand list of `_find_brand_in_title` /
`_find_brand_in_description`. -/
def brands : List String :=
  ["Nike", "Adidas", "Apple", "Samsung", "Sony"]

/-- Naive substring containment (`needle in haystack` on Python strings). -/
def containsSub (needle : List Char) : List Char → Bool
  | [] => listStartsWith needle []
  | c :: cs => listStartsWith needle (c :: cs) || containsSub needle cs

/-- Method `MercariListingNormalizer._find_brand_in_title` on a string argument:
return the first brand of the list whose lower-cased name occurs in the
lower-cased title. -/
def _find_brand_in_title_s (title : String) : Option String :=
  brands.find? (fun brand => containsSub (lowerStr brand).data (lowerStr title).data)

/-- Wrapper for `_find_brand_in_title` on an arbitrary value: `title.lower()` raises
`AttributeError` when the argument is not a string. -/
def _find_brand_in_title (v : Value) : Except PyError (Option String) :=
  match v with
  | Value.str s => Except.ok (_find_brand_in_title_s s)
  | _ => Except.error PyError.attributeError

/-- Method `MercariListingNormalizer._find_brand_in_description` on a string
argument (textually identical to the title scan in the source). -/
def _find_brand_in_description_s (description : String) : Option String :=
  brands.find? (fun brand => containsSub (lowerStr brand).data (lowerStr description).data)

/-- Wrapper for `_find_brand_in_description` on an arbitrary value. -/
def _find_brand_in_description (v : Value) : Except PyError (Option String) :=
  match v with
  | Value.str s => Except.ok (_find_brand_in_description_s s)
  | _ => Except.error PyError.attributeError

/-- An `Optional[str]` result, as the Python value it denotes. -/
def optToValue : Option String → Value
  | none => Value.null
  | some s => Value.str s

/-- First truthy value, `next((b for b in candidates if b), None)`. -/
def firstTruthy : List Value → Value
  | [] => Value.null
  | v :: vs => if truthy v then v else firstTruthy vs

/-- Method `MercariListingNormalizer._extract_brand`: build the three candidates
(the explicit `brand` field, the title scan, the description scan — all
evaluated eagerly, in that order, as the Python list literal is) and return
the first truthy one, else `None`. -/
def _extract_brand (listing_data : RawRecord) : Except PyError Value :=
  match _find_brand_in_title (getD listing_data "title" (Value.str "")) with
  | Except.error e => Except.error e
  | Except.ok t =>
    match _find_brand_in_description (getD listing_data "description" (Value.str "")) with
    | Except.error e => Except.error e
    | Except.ok d =>
      Except.ok (firstTruthy
        [getD listing_data "brand" Value.null, optToValue t, optToValue d])

/-- Decimal digit test, `[0-9]`. -/
def isDigitChar (c : Char) : Bool := '0' ≤ c && c ≤ '9'

/-- Python whitespace stripped by `float(str)`. -/
def isSpaceChar (c : Char) : Bool :=
  c == ' ' || c == '\t' || c == '\n' || c == '\r' || c == '\x0b' || c == '\x0c'

/-- Drop leading whitespace. -/
def dropSpaces (cs : List Char) : List Char := cs.dropWhile isSpaceChar

/-- Split a leading run of digits from the rest. -/
def takeDigits : List Char → List Char × List Char
  | [] => ([], [])
  | c :: cs =>
    if isDigitChar c then
      let p := takeDigits cs
      (c :: p.1, p.2)
    else ([], c :: cs)

/-- Numeric value of a digit run. -/
def digitsVal (ds : List Char) : Nat :=
  ds.foldl (fun acc c => acc * 10 + (c.toNat - 48)) 0

/-- Consume an optional sign; `true` means negative. -/
def parseSign : List Char → Bool × List Char
  | '+' :: cs => (false, cs)
  | '-' :: cs => (true, cs)
  | cs => (false, cs)

/-- Parse an unsigned decimal mantissa: `digits`, `digits.digits`,
`digits.` or `.digits`.  Returns the mantissa read as an integer, the
number of fractional digits, and the rest of the input. -/
def parseUnsigned (cs : List Char) : Option (Nat × Nat × List Char) :=
  let p := takeDigits cs
  match p.2 with
  | '.' :: rest2 =>
    let q := takeDigits rest2
    if p.1.isEmpty && q.1.isEmpty then none
    else some (digitsVal (p.1 ++ q.1), q.1.length, q.2)
  | _ => if p.1.isEmpty then none else some (digitsVal p.1, 0, p.2)

/-- Parse an optional exponent part `e`/`E`, sign, digits. -/
def parseExp : List Char → Option (Int × List Char)
  | [] => some (0, [])
  | c :: cs =>
    if c == 'e' || c == 'E' then
      let sp := parseSign cs
      let dp := takeDigits sp.2
      if dp.1.isEmpty then none
      else some ((if sp.1 then -(digitsVal dp.1 : Int) else (digitsVal dp.1 : Int)), dp.2)
    else some (0, c :: cs)

/-- The string grammar accepted by Python's `float(str)` for finite decimal
literals: optional surrounding whitespace, optional sign, decimal digits
with an optional point, optional exponent.  (`inf`/`nan` spellings are not
modelled; no claim exercises them.) -/
def parseDecimal (s : String) : Option ℚ :=
  let cs := dropSpaces s.data
  let sp := parseSign cs
  match parseUnsigned sp.2 with
  | none => none
  | some mfr =>
    match parseExp mfr.2.2 with
    | none => none
    | some er =>
      if (dropSpaces er.2).isEmpty then
        let sgn : Int := if sp.1 then -1 else 1
        let t : Int := er.1 - (mfr.2.1 : Int)
        some (if 0 ≤ t then
                mkRat (sgn * (mfr.1 : Int) * ((10 : Int) ^ t.toNat)) 1
              else
                mkRat (sgn * (mfr.1 : Int)) ((10 : Nat) ^ (-t).toNat))
      else none

/-- The Python `float(...)` coercion: numbers and booleans convert, strings
are parsed by the decimal grammar (`ValueError` on failure), and `None`,
lists and dicts raise `TypeError`. -/
def pyFloat : Value → Except PyError ℚ
  | Value.num q => Except.ok q
  | Value.bool b => Except.ok (if b then 1 else 0)
  | Value.str s =>
    match parseDecimal s with
    | some q => Except.ok q
    | none => Except.error PyError.valueError
  | Value.null => Except.error PyError.typeError
  | Value.list _ => Except.error PyError.typeError
  | Value.dict _ => Except.error PyError.typeError

/-- Classifier `normalize_condition` applied to the raw `condition` value:
`mercari_condition.lower()` raises `AttributeError` on a non-string. -/
def normalize_condition_v (v : Value) : Except PyError StandardCondition :=
  match v with
  | Value.str s => Except.ok (normalize_condition s)
  | _ => Except.error PyError.attributeError

/-- Method `MercariListingNormalizer.normalize_listing`: the canonical record as a
dict literal.  The fallible sub-expressions are evaluated in the order the
Python dict literal evaluates its values: `float(price)`, then
`normalize_condition(condition)`, then `_extract_brand`, then
`float(shipping_cost)`; the first exception wins. -/
def normalize_listing (m : RawRecord) : Except PyError (List (String × Value)) :=
  match pyFloat (getD m "price" (Value.num 0)) with
  | Except.error e => Except.error e
  | Except.ok price =>
    match normalize_condition_v (getD m "condition" (Value.str "Unknown")) with
    | Except.error e => Except.error e
    | Except.ok cond =>
      match _extract_brand m with
      | Except.error e => Except.error e
      | Except.ok brand =>
        match pyFloat (getD m "shipping_cost" (Value.num 0)) with
        | Except.error e => Except.error e
        | Except.ok shipping =>
          Except.ok
            [("platform", Value.str "Mercari"),
             ("platform_id", getD m "id" Value.null),
             ("title", getD m "title" (Value.str "")),
             ("description", getD m "description" (Value.str "")),
             ("price", Value.num price),
             ("images", getD m "image_urls" (Value.list [])),
             ("condition", Value.str (conditionName cond)),
             ("seller_info", Value.dict (extract_seller_info m)),
             ("category", getD m "category" (Value.str "Unknown")),
             ("brand", brand),
             ("shipping_cost", Value.num shipping),
             ("shipping_method", getD m "shipping_method" (Value.str "Unknown")),
             ("url", getD m "listing_url" Value.null)]

/-- Success test for `Except`. -/
def exceptOk {α : Type} : Except PyError α → Bool
  | Except.ok _ => true
  | Except.error _ => false

/-- The value of key `k`, when present, is a string (the shape under which
the text-processing fields of `normalize_listing` cannot raise). -/
def isStrOk (r : RawRecord) (k : String) : Prop :=
  ∀ v, lookupV r k = some v → ∃ s, v = Value.str s

/-- Lookup of the result of `normalize_listing` under a key: `none` when
normalization raised or the key is absent. -/
def okLookup (e : Except PyError (List (String × Value))) (k : String) : Option Value :=
  match e with
  | Except.ok out => lookupV out k
  | Except.error _ => none

/-- The condition-code lookup table inside `MercariSearch.search`. -/
def condition_map : List (String × String) :=
  [("new", "1"), ("like_new", "2"), ("good", "3"), ("fair", "4")]

/-- Lookup in a string-to-string table (`dict.get` with default below). -/
def lookupStr (r : List (String × String)) (k : String) : Option String :=
  (r.find? (fun p => p.1 == k)).map (fun p => p.2)

/-- The arguments of `MercariSearch.search`. -/
structure SearchQuery where
  keywords : String
  category : Option String
  condition : Option String
  min_price : Option ℚ
  max_price : Option ℚ
  include_sold : Bool

/-- The query-parameter dict built by `MercariSearch.search`: keyword and a
fixed limit of 100, the category when truthy, the condition mapped through
`condition_map` (raw string passed through when absent from the table) when
truthy, the prices when not `None`, and `status=on_sale` when sold items
are excluded. -/
def build_params (q : SearchQuery) : List (String × Value) :=
  [("keyword", Value.str q.keywords), ("limit", Value.num 100)]
  ++ (match q.category with
      | some c => if !(c == "") then [("category_id", Value.str c)] else []
      | none => [])
  ++ (match q.condition with
      | some c =>
        if !(c == "") then
          [("condition", Value.str ((lookupStr condition_map (lowerStr c)).getD c))]
        else []
      | none => [])
  ++ (match q.min_price with
      | some p => [("price_min", Value.num p)]
      | none => [])
  ++ (match q.max_price with
      | some p => [("price_max", Value.num p)]
      | none => [])
  ++ (if !q.include_sold then [("status", Value.str "on_sale")] else [])

/-- Outcome of the HTTP GET in `MercariSearch.search`.  `transportError`
stands for any raised `requests.RequestException` (connection failures,
timeouts, and the `JSONDecodeError` of `response.json()`, which subclasses
it); `response` is a received response with its status code and parsed
JSON body. -/
inductive HttpOutcome where
  | transportError : HttpOutcome
  | response : Nat → Value → HttpOutcome

/-- Does `response.raise_for_status()` raise (an `HTTPError`, itself a
`RequestException`) for this status code?  It does for 4xx and 5xx. -/
def raise_for_status (status : Nat) : Bool :=
  decide (400 ≤ status) && decide (status < 600)

/-- Dict access `v.get(k, d)` on an arbitrary value: `AttributeError` unless `v` is a
dict. -/
def pyGet (v : Value) (k : String) (d : Value) : Except PyError Value :=
  match v with
  | Value.dict fs => Except.ok (getD fs k d)
  | _ => Except.error PyError.attributeError

/-- Python `==` between an arbitrary value and a string literal. -/
def isStrEq (v : Value) (s : String) : Bool :=
  match v with
  | Value.str t => t == s
  | _ => false

/-- String rendering of an interpolated value, for the
`f"https://mercari.com/item/..."` URL.  Item ids are strings, for which
this agrees with Python's `str`; the exact rendering of the other shapes
is not load-bearing for any claim. -/
def pyStr : Value → String
  | Value.null => "None"
  | Value.bool b => if b then "True" else "False"
  | Value.num q => toString q.num ++ (if q.den == 1 then "" else "/" ++ toString q.den)
  | Value.str s => s
  | Value.list _ => "list"
  | Value.dict _ => "dict"

/-- The per-item projection inside `MercariSearch.search`'s comprehension:
requires each item to be a dict (`item.get` on anything else raises). -/
def processItem (item : Value) : Except PyError (List (String × Value)) :=
  match item with
  | Value.dict fs =>
    Except.ok
      [("id", getD fs "id" Value.null),
       ("title", getD fs "name" Value.null),
       ("price", getD fs "price" Value.null),
       ("condition", getD fs "condition_description" Value.null),
       ("url", Value.str ("https://mercari.com/item/" ++ pyStr (getD fs "id" Value.null))),
       ("is_sold", Value.bool (isStrEq (getD fs "status" Value.null) "sold"))]
  | _ => Except.error PyError.attributeError

/-- The list comprehension over the `items` array, first failure wins. -/
def processItems : List Value → Except PyError (List (List (String × Value)))
  | [] => Except.ok []
  | v :: vs =>
    match processItem v with
    | Except.error e => Except.error e
    | Except.ok r =>
      match processItems vs with
      | Except.error e => Except.error e
      | Except.ok rs => Except.ok (r :: rs)

/-- The response-handling part of `MercariSearch.search`: any
`RequestException` (transport failure, or the `HTTPError` raised by
`raise_for_status` on a 4xx/5xx status) is caught and turned into the
empty list; otherwise `response.json().get('items', [])` is projected
item by item.  Exceptions outside the `RequestException` hierarchy (a
non-dict JSON body, a non-list `items` value, a non-dict item) propagate,
which the `Except` layer records. -/
def search_handle (outcome : HttpOutcome) : Except PyError (List (List (String × Value))) :=
  match outcome with
  | HttpOutcome.transportError => Except.ok []
  | HttpOutcome.response status body =>
    if raise_for_status status then Except.ok []
    else
      match pyGet body "items" (Value.list []) with
      | Except.error e => Except.error e
      | Except.ok items =>
        match items with
        | Value.list xs => processItems xs
        | _ => Except.error PyError.typeError

/-- Unfolding lemma for `normalize_condition` with the `let` expanded. -/
theorem normalize_condition_eq (s : String) :
    normalize_condition s =
      match condition_mapping.find? (fun pc => pc.1.any (fun p => hasWB p (lowerStr s))) with
      | some pc => pc.2
      | none => StandardCondition.GOOD := rfl

/-- Claim C1 (counterexample): on the empty raw record, the seller record
produced by `extract_seller_info` has no key `name` (nor `rating`): the
code writes the keys `seller_name` and `seller_rating`. -/
theorem seller_info_name_key_missing :
    lookupV (extract_seller_info []) "name" = none ∧
    lookupV (extract_seller_info []) "rating" = none ∧
    lookupV (extract_seller_info []) "seller_name" = some (Value.str "Unknown") := by
  refine ⟨rfl, rfl, rfl⟩

/-- Claim C1 (amended): `extract_seller_info` writes exactly the keys
`seller_name`, `seller_rating`, `total_sales`, `joined_date`; for every raw
record, `seller_name` is the record's `seller_username` (default
`"Unknown"`), `seller_rating` is `seller_rating` (default null),
`total_sales` is `seller_total_sales` (default 0) and `joined_date` is
`seller_join_date` (default null).  On the empty record this yields
`seller_name = "Unknown"`, `seller_rating = null`, `total_sales = 0`,
`joined_date = null`. -/
theorem seller_info_projection (r : RawRecord) :
    (extract_seller_info r).map Prod.fst =
      ["seller_name", "seller_rating", "total_sales", "joined_date"] ∧
    lookupV (extract_seller_info r) "seller_name"
      = some (getD r "seller_username" (Value.str "Unknown")) ∧
    lookupV (extract_seller_info r) "seller_rating"
      = some (getD r "seller_rating" Value.null) ∧
    lookupV (extract_seller_info r) "total_sales"
      = some (getD r "seller_total_sales" (Value.num 0)) ∧
    lookupV (extract_seller_info r) "joined_date"
      = some (getD r "seller_join_date" Value.null) := by
  refine ⟨rfl, ?_, ?_, ?_, ?_⟩ <;> simp [extract_seller_info, lookupV, List.find?]

/-- Claim C2: every condition string containing the phrase `like new`
(case-insensitively, with word boundaries, exactly as the regex
`\blike new\b` tests it) is classified `LIKE_NEW`: its pattern is first in
the ordered table, so it wins over `brand new` and `new`. -/
theorem like_new_priority (s : String) (h : hasWB "like new" (lowerStr s) = true) :
    normalize_condition s = StandardCondition.LIKE_NEW := by
  rw [normalize_condition_eq]
  rw [show condition_mapping.find? (fun pc => pc.1.any (fun p => hasWB p (lowerStr s)))
        = some (["like new"], StandardCondition.LIKE_NEW) by
    unfold condition_mapping
    rw [List.find?_cons_of_pos]
    simp [h]]

/-- Claim C2 witness at a string that also contains the word `new`. -/
theorem like_new_priority_witness :
    hasWB "like new" (lowerStr "Like New - new in box") = true ∧
    normalize_condition "Like New - new in box" = StandardCondition.LIKE_NEW :=
  ⟨by decide, like_new_priority "Like New - new in box" (by decide)⟩

/-- Claim C3: the classifier is total (it is a Lean function into the
six-variant enumeration); whenever none of the seven word-boundary
patterns matches the lower-cased input it returns `GOOD`; and on the
spec's concrete examples it returns `GOOD`, `NEW`, `VERY_GOOD`, `POOR`. -/
theorem classify_total_default :
    (∀ s : String, matchesAny s = false → normalize_condition s = StandardCondition.GOOD) ∧
    (∀ s : String, normalize_condition s ∈
      [StandardCondition.NEW, StandardCondition.LIKE_NEW, StandardCondition.VERY_GOOD,
       StandardCondition.GOOD, StandardCondition.ACCEPTABLE, StandardCondition.POOR]) ∧
    normalize_condition "" = StandardCondition.GOOD ∧
    normalize_condition "Brand New" = StandardCondition.NEW ∧
    normalize_condition "Very Good Condition" = StandardCondition.VERY_GOOD ∧
    normalize_condition "Poor, Has Flaws" = StandardCondition.POOR := by
  refine ⟨?_, ?_, by decide, by decide, by decide, by decide⟩
  · intro s h
    rw [normalize_condition_eq]
    cases hf : condition_mapping.find? (fun pc => pc.1.any (fun p => hasWB p (lowerStr s))) with
    | none => rfl
    | some pc =>
      exfalso
      have hp := List.find?_some hf
      have hm := List.mem_of_find?_eq_some hf
      have hAny : matchesAny s = true := by
        unfold matchesAny
        exact List.any_eq_true.mpr ⟨pc, hm, hp⟩
      rw [h] at hAny
      exact Bool.false_ne_true hAny
  · intro s
    cases h : normalize_condition s <;> simp

/-- Claim C3 witness: a string matched by none of the seven patterns. -/
theorem classify_total_default_witness :
    matchesAny "worn once" = false ∧
    normalize_condition "worn once" = StandardCondition.GOOD :=
  ⟨by decide, classify_total_default.1 "worn once" (by decide)⟩

/-- Unfolding lemma: when the raw title and description values are the
strings `tt` and `dd` (after their `''` defaults), `_extract_brand`
returns the first truthy candidate among the explicit field, the title
scan and the description scan. -/
theorem extract_brand_eq (r : RawRecord) (tt dd : String)
    (ht : getD r "title" (Value.str "") = Value.str tt)
    (hd : getD r "description" (Value.str "") = Value.str dd) :
    _extract_brand r = Except.ok (firstTruthy
      [getD r "brand" Value.null,
       optToValue (_find_brand_in_title_s tt),
       optToValue (_find_brand_in_description_s dd)]) := by
  unfold _extract_brand
  rw [ht, hd]
  rfl

/-- Any string returned by the title scan is one of the five list
entries, hence nonempty. -/
theorem find_brand_title_ne_empty (t x : String) (hx : _find_brand_in_title_s t = some x) :
    (x == "") = false := by
  have hmem : x ∈ brands := List.mem_of_find?_eq_some hx
  rcases (by simpa [brands] using hmem : x = "Nike" ∨ x = "Adidas" ∨ x = "Apple" ∨
      x = "Samsung" ∨ x = "Sony") with h | h | h | h | h <;> subst h <;> rfl

/-- Same for the description scan. -/
theorem find_brand_description_ne_empty (d y : String)
    (hy : _find_brand_in_description_s d = some y) : (y == "") = false := by
  have hmem : y ∈ brands := List.mem_of_find?_eq_some hy
  rcases (by simpa [brands] using hmem : y = "Nike" ∨ y = "Adidas" ∨ y = "Apple" ∨
      y = "Samsung" ∨ y = "Sony") with h | h | h | h | h <;> subst h <;> rfl

/-- Claim C4: brand resolution tries, in strict priority order, the
explicit `brand` field (when truthy, in particular when a nonempty
string), then the title scan, then the description scan, and returns null
when all fail.  Stated for raw records whose title and description values
(after defaulting to `''`) are strings, since both scans lower-case them. -/
theorem brand_priority (r : RawRecord) (tt dd : String)
    (ht : getD r "title" (Value.str "") = Value.str tt)
    (hd : getD r "description" (Value.str "") = Value.str dd) :
    (∀ b, getD r "brand" Value.null = Value.str b → b ≠ "" →
        _extract_brand r = Except.ok (Value.str b)) ∧
    (truthy (getD r "brand" Value.null) = false →
      (∀ x, _find_brand_in_title_s tt = some x →
          _extract_brand r = Except.ok (Value.str x)) ∧
      (_find_brand_in_title_s tt = none →
        (∀ y, _find_brand_in_description_s dd = some y →
            _extract_brand r = Except.ok (Value.str y)) ∧
        (_find_brand_in_description_s dd = none →
            _extract_brand r = Except.ok Value.null))) := by
  rw [extract_brand_eq r tt dd ht hd]
  constructor
  · intro b hb hne
    rw [hb]
    simp [firstTruthy, truthy, hne]
  · intro hfalse
    constructor
    · intro x hx
      rw [hx]
      simp only [firstTruthy, optToValue, hfalse]
      simp [truthy, find_brand_title_ne_empty tt x hx]
    · intro hnone
      rw [hnone]
      constructor
      · intro y hy
        rw [hy]
        simp only [firstTruthy, optToValue, hfalse]
        simp [truthy, find_brand_description_ne_empty dd y hy]
      · intro hnone2
        rw [hnone2]
        simp only [firstTruthy, optToValue, hfalse]
        simp [truthy]

/-- Claim C4 witness: explicit `brand="Acme"` wins over a title containing
`Nike`. -/
theorem brand_priority_witness :
    _extract_brand [("brand", Value.str "Acme"), ("title", Value.str "Nike Air Max")]
      = Except.ok (Value.str "Acme") :=
  (brand_priority [("brand", Value.str "Acme"), ("title", Value.str "Nike Air Max")]
      "Nike Air Max" "" rfl rfl).1 "Acme" rfl (by decide)

/-- Claim C9: whatever string the title or description scan returns is an
entry of the literal brand list, in the list's canonical casing — e.g. the
title `nike air max` resolves to `Nike`. -/
theorem brand_scan_canonical :
    (∀ t b, _find_brand_in_title_s t = some b → b ∈ brands) ∧
    (∀ d b, _find_brand_in_description_s d = some b → b ∈ brands) ∧
    brands = ["Nike", "Adidas", "Apple", "Samsung", "Sony"] ∧
    _find_brand_in_title_s "nike air max" = some "Nike" := by
  refine ⟨?_, ?_, rfl, rfl⟩
  · intro t b h
    exact List.mem_of_find?_eq_some h
  · intro d b h
    exact List.mem_of_find?_eq_some h

/-- Claim C9 witness. -/
theorem brand_scan_canonical_witness : "Nike" ∈ brands :=
  brand_scan_canonical.1 "nike air max" "Nike" rfl

/-- When key `k` holds a string whenever present, `getD` with a string
default yields a string. -/
theorem getD_str_of_isStrOk (r : RawRecord) (k : String) (dflt : String)
    (h : isStrOk r k) : ∃ s, getD r k (Value.str dflt) = Value.str s := by
  unfold getD
  cases hl : lookupV r k with
  | none => exact ⟨dflt, rfl⟩
  | some v =>
    obtain ⟨s, rfl⟩ := h v hl
    exact ⟨s, rfl⟩

/-- The condition branch of `normalize_listing` cannot raise when any
present `condition` value is a string. -/
theorem normalize_condition_v_ok (r : RawRecord) (hc : isStrOk r "condition") :
    ∃ c, normalize_condition_v (getD r "condition" (Value.str "Unknown")) = Except.ok c := by
  obtain ⟨s, hs⟩ := getD_str_of_isStrOk r "condition" "Unknown" hc
  rw [hs]
  exact ⟨normalize_condition s, rfl⟩

/-- The brand branch of `normalize_listing` cannot raise when any present
`title` or `description` value is a string. -/
theorem extract_brand_ok (r : RawRecord) (ht : isStrOk r "title")
    (hd : isStrOk r "description") : ∃ b, _extract_brand r = Except.ok b := by
  obtain ⟨tt, htt⟩ := getD_str_of_isStrOk r "title" "" ht
  obtain ⟨dd, hdd⟩ := getD_str_of_isStrOk r "description" "" hd
  exact ⟨_, extract_brand_eq r tt dd htt hdd⟩

/-- Claim C5 (counterexample): a raw record whose `condition` value is
null makes `normalize_listing` raise (`None.lower()` is an
`AttributeError`) even though both numeric fields are absent and their
defaults coerce, so numeric coercion is not the only way the normalizer
raises. -/
theorem normalize_raises_on_null_condition :
    normalize_listing [("condition", Value.null)] = Except.error PyError.attributeError ∧
    pyFloat (getD [("condition", Value.null)] "price" (Value.num 0)) = Except.ok 0 ∧
    pyFloat (getD [("condition", Value.null)] "shipping_cost" (Value.num 0)) = Except.ok 0 :=
  ⟨rfl, rfl, rfl⟩

/-- Claim C5 (amended): provided any present `title`, `description` and
`condition` values are strings (the shapes whose `.lower()` calls cannot
raise), `normalize_listing` succeeds if and only if the `price` value and
the `shipping_cost` value (their absent defaults included) coerce to a
number — every other field degrades to its default rather than erroring. -/
theorem normalize_total_except_numeric (r : RawRecord)
    (ht : isStrOk r "title") (hd : isStrOk r "description") (hc : isStrOk r "condition") :
    exceptOk (normalize_listing r) = true ↔
      (exceptOk (pyFloat (getD r "price" (Value.num 0))) = true ∧
       exceptOk (pyFloat (getD r "shipping_cost" (Value.num 0))) = true) := by
  obtain ⟨c, hcc⟩ := normalize_condition_v_ok r hc
  obtain ⟨b, hbb⟩ := extract_brand_ok r ht hd
  cases hp : pyFloat (getD r "price" (Value.num 0)) <;>
    cases hs : pyFloat (getD r "shipping_cost" (Value.num 0)) <;>
      simp [normalize_listing, hp, hs, hcc, hbb, exceptOk]

/-- Claim C5 witness: at the empty record the hypotheses hold vacuously
and both sides of the equivalence are true. -/
theorem normalize_total_except_numeric_witness :
    exceptOk (normalize_listing []) = true ↔
      (exceptOk (pyFloat (getD [] "price" (Value.num 0))) = true ∧
       exceptOk (pyFloat (getD [] "shipping_cost" (Value.num 0))) = true) :=
  normalize_total_except_numeric [] (fun _v h => nomatch h) (fun _v h => nomatch h)
    (fun _v h => nomatch h)

/-- Claim C8: `normalize_listing` is a pure function of its input:
structurally equal raw records normalize to structurally equal canonical
records. -/
theorem normalize_deterministic (r₁ r₂ : RawRecord) (h : r₁ = r₂) :
    normalize_listing r₁ = normalize_listing r₂ :=
  congrArg normalize_listing h

/-- Claim C8 witness. -/
theorem normalize_deterministic_witness :
    normalize_listing [("id", Value.str "mercari_123456")]
      = normalize_listing [("id", Value.str "mercari_123456")] :=
  normalize_deterministic [("id", Value.str "mercari_123456")]
    [("id", Value.str "mercari_123456")] rfl

/-- Claim C7: whenever `normalize_listing` succeeds, the canonical record
has exactly the 13 documented keys, in the dict literal's order, and its
`platform` value is the constant `"Mercari"`. -/
theorem canonical_keys (r : RawRecord) (out : List (String × Value))
    (h : normalize_listing r = Except.ok out) :
    out.map Prod.fst =
      ["platform", "platform_id", "title", "description", "price", "images", "condition",
       "seller_info", "category", "brand", "shipping_cost", "shipping_method", "url"] ∧
    lookupV out "platform" = some (Value.str "Mercari") := by
  cases hp : pyFloat (getD r "price" (Value.num 0)) with
  | error e => simp [normalize_listing, hp] at h
  | ok price =>
    cases hc : normalize_condition_v (getD r "condition" (Value.str "Unknown")) with
    | error e => simp [normalize_listing, hp, hc] at h
    | ok cond =>
      cases hb : _extract_brand r with
      | error e => simp [normalize_listing, hp, hc, hb] at h
      | ok brand =>
        cases hs : pyFloat (getD r "shipping_cost" (Value.num 0)) with
        | error e => simp [normalize_listing, hp, hc, hb, hs] at h
        | ok shipping =>
          simp only [normalize_listing, hp, hc, hb, hs, Except.ok.injEq] at h
          subst h
          exact ⟨rfl, rfl⟩

/-- Claim C7 witness, at the empty raw record. -/
theorem canonical_keys_witness :
    normalize_listing [] = Except.ok
      [("platform", Value.str "Mercari"),
       ("platform_id", Value.null),
       ("title", Value.str ""),
       ("description", Value.str ""),
       ("price", Value.num 0),
       ("images", Value.list []),
       ("condition", Value.str "GOOD"),
       ("seller_info", Value.dict
          [("seller_name", Value.str "Unknown"),
           ("seller_rating", Value.null),
           ("total_sales", Value.num 0),
           ("joined_date", Value.null)]),
       ("category", Value.str "Unknown"),
       ("brand", Value.null),
       ("shipping_cost", Value.num 0),
       ("shipping_method", Value.str "Unknown"),
       ("url", Value.null)] ∧
    ([("platform", Value.str "Mercari"),
      ("platform_id", Value.null),
      ("title", Value.str ""),
      ("description", Value.str ""),
      ("price", Value.num 0),
      ("images", Value.list []),
      ("condition", Value.str "GOOD"),
      ("seller_info", Value.dict
         [("seller_name", Value.str "Unknown"),
          ("seller_rating", Value.null),
          ("total_sales", Value.num 0),
          ("joined_date", Value.null)]),
      ("category", Value.str "Unknown"),
      ("brand", Value.null),
      ("shipping_cost", Value.num 0),
      ("shipping_method", Value.str "Unknown"),
      ("url", Value.null)] : List (String × Value)).map Prod.fst =
      ["platform", "platform_id", "title", "description", "price", "images", "condition",
       "seller_info", "category", "brand", "shipping_cost", "shipping_method", "url"] :=
  ⟨rfl, (canonical_keys [] _ rfl).1⟩

/-- Claim C10: `missing` means the key is absent.  A record binding
`price` to null raises `TypeError` from `float(None)` (for every such
record, `price` being the first coercion evaluated); binding
`shipping_cost` to null likewise raises; a record without the keys gets
price 0 and shipping_cost 0; and the numeric string `"79.99"` coerces to
79.99. -/
theorem missing_key_vs_null_value :
    (∀ r : RawRecord, lookupV r "price" = some Value.null →
        normalize_listing r = Except.error PyError.typeError) ∧
    normalize_listing [("shipping_cost", Value.null)] = Except.error PyError.typeError ∧
    okLookup (normalize_listing []) "price" = some (Value.num 0) ∧
    okLookup (normalize_listing []) "shipping_cost" = some (Value.num 0) ∧
    okLookup (normalize_listing [("price", Value.str "79.99")]) "price"
      = some (Value.num (mkRat 7999 100)) := by
  refine ⟨?_, rfl, rfl, rfl, rfl⟩
  intro r h
  unfold normalize_listing getD
  rw [h]
  rfl

/-- Claim C10 witness for the universally quantified conjunct. -/
theorem missing_key_vs_null_value_witness :
    normalize_listing [("price", Value.null)] = Except.error PyError.typeError :=
  missing_key_vs_null_value.1 [("price", Value.null)] rfl

/-- Claim C6: when the HTTP request fails at the transport level, or the
response status is a 4xx/5xx (so that `raise_for_status` raises), `search`
catches the `RequestException` and returns the empty list — no exception
reaches the caller, making a failed search indistinguishable from an
empty one. -/
theorem search_failure_empty :
    search_handle HttpOutcome.transportError = Except.ok [] ∧
    (∀ (status : Nat) (body : Value), 400 ≤ status → status < 600 →
        search_handle (HttpOutcome.response status body) = Except.ok []) := by
  refine ⟨rfl, ?_⟩
  intro status body h1 h2
  have hr : raise_for_status status = true := by
    simp [raise_for_status, h1, h2]
  simp [search_handle, hr]

/-- Claim C6 witness at status 404. -/
theorem search_failure_empty_witness :
    search_handle (HttpOutcome.response 404 Value.null) = Except.ok [] :=
  search_failure_empty.2 404 Value.null (by decide) (by decide)
